import Mathlib

/- Shallow embedding of slopy's live-reload pipeline:
   `src/slobypy/manager.py` (the `run` startup, `import_file`, and the
   `SloDash` watch loop with its callbacks) and the URI validator
   `uri_checker` from `src/slobypy/react/tools.py`.

   Paths are modelled as lists of name components; `Path.resolve()` is
   normalisation of `.` and `..` segments.  Python `dict`s are modelled as
   insertion-ordered association lists with dict update/delete semantics.
   Executing a module is modelled by a `LoadOutcome` carried on each watch
   event: the list of URIs the module registers when its top-level code
   runs, or the exception class its execution raises. -/

namespace Slopy

/-- A filesystem path, as a list of name components from the root.
`pathlib.Path` in the source. -/
structure PyPath where
  parts : List String
  deriving DecidableEq, Repr

/-- Normalisation of `.` and `..` segments, the essence of
`pathlib.Path.resolve()`. -/
def resolveParts (ps : List String) : List String :=
  ps.foldl (fun acc s => if s = "." then acc else if s = ".." then acc.dropLast else acc ++ [s]) []

/-- `path.resolve()` from the source. -/
def PyPath.resolve (p : PyPath) : PyPath := ⟨resolveParts p.parts⟩

/-- The characters after the last dot of a name, when the name has a dot. -/
def takeAfterLastDot : List Char → Option (List Char)
  | [] => none
  | c :: rest =>
    match takeAfterLastDot rest with
    | some s => some s
    | none => if c = '.' then some rest else none

/-- `path.suffix` from `pathlib`: the extension of the final component,
including the dot; empty for dotless names and names whose only dot leads
(hidden files). -/
def pySuffix (p : PyPath) : String :=
  match p.parts.getLast? with
  | none => ""
  | some name =>
    match name.toList with
    | [] => ""
    | _ :: rest =>
      match takeAfterLastDot rest with
      | none => ""
      | some s => String.mk ('.' :: s)

/-- `a in b.parents` from `pathlib`: `a` is a proper syntactic ancestor of `b`. -/
def isAncestorParts : List String → List String → Bool
  | [], [] => false
  | [], _ :: _ => true
  | _ :: _, [] => false
  | x :: xs, y :: ys => x = y && isAncestorParts xs ys

/-- The guard `(self.path / 'components').resolve() in path.parents` used by
both watch callbacks in `manager.py`. -/
def underComponents (root p : PyPath) : Bool :=
  isAncestorParts (resolveParts (root.parts ++ ["components"])) p.parts

/-- `str(a.resolve()) == str(b.resolve())`, the comparison used by
`watch_component_modified`. -/
def sameResolved (a b : PyPath) : Bool := a.resolve == b.resolve

/-- Python `dict` lookup: `d[k]`, `none` when the key would raise `KeyError`. -/
def dictGet {α β : Type} [DecidableEq α] : List (α × β) → α → Option β
  | [], _ => none
  | (k, v) :: rest, k0 => if k = k0 then some v else dictGet rest k0

/-- Python `dict` assignment `d[k] = v` / `d.update({k: v})`: replaces in
place when the key exists (insertion order kept), appends otherwise. -/
def dictSet {α β : Type} [DecidableEq α] : List (α × β) → α → β → List (α × β)
  | [], k0, v0 => [(k0, v0)]
  | (k, v) :: rest, k0, v0 =>
    if k = k0 then (k0, v0) :: rest else (k, v) :: dictSet rest k0 v0

/-- Python `del d[k]`: `none` models the `KeyError` when the key is absent. -/
def dictDel {α β : Type} [DecidableEq α] : List (α × β) → α → Option (List (α × β))
  | [], _ => none
  | (k, v) :: rest, k0 =>
    if k = k0 then some rest else (dictDel rest k0).map (fun d => (k, v) :: d)

/-- The key of an entry of `SloDash.modules`.  `run` stores the main module
under the bound-method object `path.resolve` (no call parentheses, see
`manager.py` line 93), which is a distinct kind of key from the `Path`
objects `path.resolve()` used everywhere else; a method object never
compares equal to a `Path`. -/
inductive ModKey where
  | resolved (p : PyPath)
  | resolveMethod (p : PyPath)
  deriving DecidableEq, Repr

/-- Whether a `modules` key is an actual path in absolute resolved form. -/
def ModKey.isResolvedPathKey : ModKey → Bool
  | ModKey.resolved p => p.resolve == p
  | ModKey.resolveMethod _ => false

/-- Modelled from the spec: an entry of `SlApp._components`
(slobypy/app.py is not under src/): a registration `{uri, source_path}`
appended by side effect when a component module executes; per the spec's
data model the recorded `source_path` is the resolved path. -/
structure Registration where
  uri : String
  source_path : PyPath
  deriving DecidableEq, Repr

/-- Modelled from the spec: the registrations appended to the Component
Registry when the module at `p` executes and registers the given URIs. -/
def mkRegs (p : PyPath) (uris : List String) : List Registration :=
  uris.map (fun u => { uri := u, source_path := p.resolve })

/-- The behaviour of executing the file at a path at the moment of an
event: its source runs and registers these URIs; or execution raises
`AttributeError` (the only class `import_file` catches); or it raises any
other exception (file missing, syntax error, ...), which `import_file`
does not catch. -/
inductive LoadOutcome where
  | ok (uris : List String)
  | attrError
  | fatal
  deriving DecidableEq, Repr

/-- One raw entry of an `awatch` change set: `(change[0]._value_, change[1])`
plus the current behaviour of the file's source. -/
structure RawEvent where
  kind : Nat
  path : PyPath
  load : LoadOutcome
  deriving DecidableEq, Repr

/-- The Change Classifier's relevance filter: `path.suffix == ".py"`. -/
def classifiedB (e : RawEvent) : Bool := pySuffix e.path == ".py"

/-- The mutable state the watch loop touches: `self.modules` (ModuleRecord
Store, a Python dict whose values may be `None`, modelled as `Option Nat`
handles), `SlApp._components` (Component Registry), a fresh-handle counter
for newly imported modules, and the log of `rpc.hot_reload_routes` calls
(the Notification Sink). -/
structure DashState where
  modules : List (ModKey × Option Nat)
  components : List Registration
  nextHandle : Nat
  notifications : List (List String)
  deriving DecidableEq, Repr

/-- Outcome of processing one watch event: normal continuation, or an
uncaught exception propagating out of `watch_root` (the state records the
side effects performed before the raise). -/
inductive StepResult where
  | ok (s : DashState)
  | crash (s : DashState)
  deriving DecidableEq, Repr

/-- The state carried by either outcome. -/
def resultState : StepResult → DashState
  | StepResult.ok s => s
  | StepResult.crash s => s

/-- `SloDash.watch_component_added`: inside the components root, the URIs of
registrations whose `source_path` equals the event path (plain `==`, no
resolution on this branch); empty outside the root.  Reads the registry,
never mutates it. -/
def watch_component_added (root : PyPath) (comps : List Registration) (p : PyPath) : List String :=
  if underComponents root p then
    (comps.filter (fun c => c.source_path == p)).map Registration.uri
  else []

/-- `SloDash.watch_component_modified`: inside the components root, removes
every registration whose resolved `source_path` equals the resolved event
path and returns their URIs (routes, surviving registry); outside the
root, returns `([], comps)` untouched. -/
def watch_component_modified (root : PyPath) (comps : List Registration) (p : PyPath) :
    List String × List Registration :=
  if underComponents root p then
    ((comps.filter (fun c => sameResolved c.source_path p)).map Registration.uri,
      comps.filter (fun c => !(sameResolved c.source_path p)))
  else ([], comps)

/-- One iteration of the inner loop of `SloDash.watch_root` for one change
`(kind, path)`.  Mirrors the source: the `.py` suffix filter; kind value 1
(Added) runs `import_file` (execution side effects first, `AttributeError`
caught and `None` stored, other exceptions propagate) then the added
callback; kind value 2 (Modified) runs the modified callback first, then
`self.modules[path.resolve()]` (KeyError propagates; `reload(None)` raises
`TypeError`; a failing re-execution propagates) and stores the reloaded
handle; every other kind takes the deleted branch, which looks up the key
`"deleted"` in a callbacks dict whose keys are `"added"/"modified"/"removed"`,
so the default `empty_list_callback` runs and only `del
self.modules[path.resolve()]` happens.  Each completed event ends with
`await self.rpc.hot_reload_routes(routes)`. -/
def watch_root_step (root : PyPath) (s : DashState) (e : RawEvent) : StepResult :=
  if classifiedB e then
    if e.kind = 1 then
      match e.load with
      | LoadOutcome.fatal => StepResult.crash s
      | LoadOutcome.attrError =>
        StepResult.ok { s with
          modules := dictSet s.modules (ModKey.resolved e.path.resolve) none,
          notifications := s.notifications ++ [watch_component_added root s.components e.path] }
      | LoadOutcome.ok uris =>
        StepResult.ok { s with
          modules := dictSet s.modules (ModKey.resolved e.path.resolve) (some s.nextHandle),
          components := s.components ++ mkRegs e.path uris,
          nextHandle := s.nextHandle + 1,
          notifications := s.notifications ++
            [watch_component_added root (s.components ++ mkRegs e.path uris) e.path] }
    else if e.kind = 2 then
      match dictGet s.modules (ModKey.resolved e.path.resolve) with
      | none =>
        StepResult.crash { s with
          components := (watch_component_modified root s.components e.path).2 }
      | some none =>
        StepResult.crash { s with
          components := (watch_component_modified root s.components e.path).2 }
      | some (some h) =>
        match e.load with
        | LoadOutcome.ok uris =>
          StepResult.ok { s with
            modules := dictSet s.modules (ModKey.resolved e.path.resolve) (some h),
            components := (watch_component_modified root s.components e.path).2 ++ mkRegs e.path uris,
            notifications := s.notifications ++ [(watch_component_modified root s.components e.path).1] }
        | LoadOutcome.attrError =>
          StepResult.crash { s with
            components := (watch_component_modified root s.components e.path).2 }
        | LoadOutcome.fatal =>
          StepResult.crash { s with
            components := (watch_component_modified root s.components e.path).2 }
    else
      match dictDel s.modules (ModKey.resolved e.path.resolve) with
      | none => StepResult.crash s
      | some d =>
        StepResult.ok { s with modules := d, notifications := s.notifications ++ [[]] }
  else StepResult.ok s

/-- The inner `for change in changes` loop of `watch_root` over one batch,
in iteration order: an uncaught exception aborts the whole loop. -/
def watch_root_batch (root : PyPath) (s : DashState) : List RawEvent → StepResult
  | [] => StepResult.ok s
  | e :: rest =>
    match watch_root_step root s e with
    | StepResult.ok s1 => watch_root_batch root s1 rest
    | StepResult.crash s1 => StepResult.crash s1

/-- The ModuleRecord Store built by `run` (`manager.py` lines 93-100):
`modules = {path.resolve: import_file(path)}` stores the main module under
the bound method `path.resolve` — the call parentheses are missing — and
then `modules.update({component.resolve(): import_file(component) ...})`
stores each component module under its resolved path. -/
def run_initial_modules (mainPath : PyPath) (mainHandle : Option Nat)
    (comps : List (PyPath × Option Nat)) : List (ModKey × Option Nat) :=
  comps.foldl (fun d pc => dictSet d (ModKey.resolved pc.1.resolve) pc.2)
    [(ModKey.resolveMethod mainPath, mainHandle)]

/-- Decidable equality for `Except`, so the model evaluates on concrete
inputs. -/
instance exceptDecEq {ε α : Type} [DecidableEq ε] [DecidableEq α] :
    DecidableEq (Except ε α) := fun x y =>
  match x, y with
  | Except.ok a, Except.ok b =>
    if h : a = b then isTrue (h ▸ rfl) else isFalse (fun he => h (Except.ok.inj he))
  | Except.error a, Except.error b =>
    if h : a = b then isTrue (h ▸ rfl) else isFalse (fun he => h (Except.error.inj he))
  | Except.ok _, Except.error _ => isFalse (fun he => Except.noConfusion he)
  | Except.error _, Except.ok _ => isFalse (fun he => Except.noConfusion he)

/-- Concrete project root used by the concrete scenarios below. -/
def rootFx : PyPath := ⟨["proj"]⟩

/-- A component module inside `proj/components`. -/
def widgetFx : PyPath := ⟨["proj", "components", "w.py"]⟩

/-- A source module outside the components directory. -/
def otherFx : PyPath := ⟨["proj", "other.py"]⟩

/-- The project's main file. -/
def mainFx : PyPath := ⟨["proj", "app.py"]⟩

/-- State with `w.py` loaded and registered under URI `/widget2`. -/
def st1 : DashState := ⟨[(ModKey.resolved widgetFx, some 0)], [⟨"/widget2", widgetFx⟩], 1, []⟩

/-- State with `w.py` loaded and an empty registry. -/
def st2 : DashState := ⟨[(ModKey.resolved widgetFx, some 0)], [], 1, []⟩

/-- State with `w.py` loaded, registered under `/a` and `/b`. -/
def st3 : DashState := ⟨[(ModKey.resolved widgetFx, some 0)], [⟨"/a", widgetFx⟩, ⟨"/b", widgetFx⟩], 1, []⟩

/-- Empty store and registry. -/
def st4 : DashState := ⟨[], [], 0, []⟩

/-- State with `w.py` loaded under handle 5. -/
def st5 : DashState := ⟨[(ModKey.resolved widgetFx, some 5)], [], 6, []⟩

/-- Empty store and registry. -/
def st6 : DashState := ⟨[], [], 0, []⟩

/-- State with the outside-root module `other.py` loaded. -/
def st8 : DashState := ⟨[(ModKey.resolved otherFx, some 0)], [], 1, []⟩

/-- State with `w.py` loaded and registered under `/w`. -/
def st9 : DashState := ⟨[(ModKey.resolved widgetFx, some 0)], [⟨"/w", widgetFx⟩], 1, []⟩

/-- A Modified event for `w.py` whose store entry is absent in `st4`/`st6`. -/
def ev4a : RawEvent := ⟨2, widgetFx, LoadOutcome.ok []⟩

/-- An Added event for `other.py`. -/
def ev4b : RawEvent := ⟨1, otherFx, LoadOutcome.ok []⟩

/-- An Added event for `w.py` registering `/a`. -/
def ev4c : RawEvent := ⟨1, widgetFx, LoadOutcome.ok ["/a"]⟩

/-- The state a successful run of `[ev4c]` from `st4` ends in. -/
def st4w : DashState := resultState (watch_root_batch rootFx st4 [ev4c])

/-- A Modified event for `w.py` registering `/z` (store entry absent in `st6`). -/
def ev6a : RawEvent := ⟨2, widgetFx, LoadOutcome.ok ["/z"]⟩

/-- An Added event for `other.py` registering `/n`. -/
def ev6b : RawEvent := ⟨1, otherFx, LoadOutcome.ok ["/n"]⟩

/-- A Modified event for `w.py` whose re-execution raises. -/
def ev9a : RawEvent := ⟨2, widgetFx, LoadOutcome.fatal⟩

/-- An Added event for `other.py` registering `/q`. -/
def ev9b : RawEvent := ⟨1, otherFx, LoadOutcome.ok ["/q"]⟩

theorem dictGet_none_imp_dictDel_none {α β : Type} [DecidableEq α] (d : List (α × β)) (k : α)
    (h : dictGet d k = none) : dictDel d k = none := by
  induction d with
  | nil => rfl
  | cons kv rest ih =>
    obtain ⟨k1, v1⟩ := kv
    simp only [dictGet] at h
    by_cases hk : k1 = k
    · simp [hk] at h
    · simp only [dictDel, if_neg hk]
      rw [ih (by simpa [hk] using h)]
      rfl

theorem step_ok_notifs (root : PyPath) (s : DashState) (e : RawEvent) (s1 : DashState)
    (hok : watch_root_step root s e = StepResult.ok s1) :
    ∃ ns, s1.notifications = s.notifications ++ ns ∧
      ns.length = (if classifiedB e then 1 else 0) := by
  by_cases hc : classifiedB e
  · simp only [watch_root_step, if_pos hc] at hok
    by_cases hk1 : e.kind = 1
    · rw [if_pos hk1] at hok
      cases hl : e.load <;> rw [hl] at hok
      · injection hok with h1
        exact ⟨_, by rw [← h1], by simp [hc]⟩
      · injection hok with h1
        exact ⟨_, by rw [← h1], by simp [hc]⟩
      · exact absurd hok (by simp)
    · rw [if_neg hk1] at hok
      by_cases hk2 : e.kind = 2
      · rw [if_pos hk2] at hok
        cases hg : dictGet s.modules (ModKey.resolved e.path.resolve) with
        | none => rw [hg] at hok; exact absurd hok (by simp)
        | some mh =>
          rw [hg] at hok
          cases mh with
          | none => exact absurd hok (by simp)
          | some h =>
            cases hl : e.load <;> rw [hl] at hok
            · injection hok with h1
              exact ⟨_, by rw [← h1], by simp [hc]⟩
            · exact absurd hok (by simp)
            · exact absurd hok (by simp)
      · rw [if_neg hk2] at hok
        cases hd : dictDel s.modules (ModKey.resolved e.path.resolve) with
        | none => rw [hd] at hok; exact absurd hok (by simp)
        | some d =>
          rw [hd] at hok
          injection hok with h1
          exact ⟨_, by rw [← h1], by simp [hc]⟩
  · simp only [watch_root_step, if_neg hc] at hok
    injection hok with h1
    exact ⟨[], by rw [← h1]; simp, by simp [hc]⟩

/-- C1: on a Removed event (watcher kind value 3) for `w.py` — previously
loaded and registered under `/widget2` — the code looks up the callbacks
dict with key `"deleted"` while the dict's key is `"removed"`, so the default
empty callback runs: the ModuleRecord Store entry is deleted, but the
Component Registry still contains the `/widget2` registration and the
notification carries `[]` instead of the removed URIs. -/
theorem removed_event_keeps_registry :
    watch_root_step rootFx st1 ⟨3, widgetFx, LoadOutcome.ok []⟩ =
      StepResult.ok ⟨[], [⟨"/widget2", widgetFx⟩], 1, [[]]⟩ := by decide

/-- C2 counterexample: a watch event of unknown kind value 7 on a loaded
source path is not handled like a Modified event (kind value 2): the
unknown kind deletes the store entry instead of reloading it. -/
theorem unknown_kind_not_modified_cx :
    watch_root_step rootFx st2 ⟨7, widgetFx, LoadOutcome.ok []⟩ ≠
      watch_root_step rootFx st2 ⟨2, widgetFx, LoadOutcome.ok []⟩ := by decide

/-- C2 amended: every kind value other than 1 (Added) and 2 (Modified) —
including the watcher's Removed value 3 and any unknown value — takes the
deleted branch of `watch_root`, i.e. is handled exactly like a Removed
event, not like a Modified one. -/
theorem unknown_kind_handled_as_removed (root : PyPath) (s : DashState) (p : PyPath)
    (l : LoadOutcome) (k : Nat) (h1 : k ≠ 1) (h2 : k ≠ 2) :
    watch_root_step root s ⟨k, p, l⟩ = watch_root_step root s ⟨3, p, l⟩ := by
  simp [watch_root_step, h1, h2, classifiedB]

theorem unknown_kind_handled_as_removed_witness :
    watch_root_step rootFx st2 ⟨7, widgetFx, LoadOutcome.ok []⟩ =
      watch_root_step rootFx st2 ⟨3, widgetFx, LoadOutcome.ok []⟩ :=
  unknown_kind_handled_as_removed rootFx st2 widgetFx (LoadOutcome.ok []) 7
    (by decide) (by decide)

/-- C3: a Modified event on a loaded source path under the components root
removes from the Component Registry exactly the registrations whose
resolved `source_path` equals the path — before the reload re-registers the
module's new URIs — and the emitted notification is exactly the stale URIs
taken from the registry as it stood before the event. -/
theorem modified_event_stale_routes (root : PyPath) (s : DashState) (p : PyPath)
    (uris : List String) (h : Nat)
    (hsuf : pySuffix p = ".py") (hroot : underComponents root p = true)
    (hmod : dictGet s.modules (ModKey.resolved p.resolve) = some (some h)) :
    watch_root_step root s ⟨2, p, LoadOutcome.ok uris⟩ =
      StepResult.ok { s with
        modules := dictSet s.modules (ModKey.resolved p.resolve) (some h),
        components := (s.components.filter (fun c => !(sameResolved c.source_path p))) ++ mkRegs p uris,
        notifications := s.notifications ++
          [(s.components.filter (fun c => sameResolved c.source_path p)).map Registration.uri] } := by
  simp [watch_root_step, classifiedB, hsuf, hmod, watch_component_modified, hroot]

theorem modified_event_stale_routes_witness :
    watch_root_step rootFx st3 ⟨2, widgetFx, LoadOutcome.ok ["/b", "/c"]⟩ =
      StepResult.ok ⟨[(ModKey.resolved widgetFx, some 0)],
        [⟨"/b", widgetFx⟩, ⟨"/c", widgetFx⟩], 1, [["/a", "/b"]]⟩ :=
  (modified_event_stale_routes rootFx st3 widgetFx ["/b", "/c"] 0
    (by decide) (by decide) (by decide)).trans (by decide)

/-- C4 counterexample: the batch `[ev4a, ev4b]` holds two classified (`.py`)
events, but processing it from the empty state emits zero notifications:
`ev4a` raises `KeyError` (its path has no store entry) and the loop dies
before notifying for either event. -/
theorem per_event_notification_cx :
    (resultState (watch_root_batch rootFx st4 [ev4a, ev4b])).notifications.length = 0 ∧
    ([ev4a, ev4b].filter classifiedB).length = 2 := by decide

/-- C4 amended: when every event of the batch processes without an uncaught
exception, the Notification Sink is invoked exactly once per classified
(`.py`-suffix) event, in observation order, appending one route list per
such event (an empty list is still sent); an uncaught per-event exception
instead terminates the loop, suppressing that event's and all later
notifications. -/
theorem batch_ok_notification_count (root : PyPath) (evs : List RawEvent) :
    ∀ s s1 : DashState, watch_root_batch root s evs = StepResult.ok s1 →
      ∃ ns, s1.notifications = s.notifications ++ ns ∧
        ns.length = (evs.filter classifiedB).length := by
  induction evs with
  | nil =>
    intro s s1 h
    injection h with h1
    exact ⟨[], by rw [← h1]; simp, by simp⟩
  | cons e rest ih =>
    intro s s1 h
    simp only [watch_root_batch] at h
    cases hstep : watch_root_step root s e with
    | ok s2 =>
      rw [hstep] at h
      obtain ⟨ns1, hn1, hl1⟩ := step_ok_notifs root s e s2 hstep
      obtain ⟨ns2, hn2, hl2⟩ := ih s2 s1 h
      refine ⟨ns1 ++ ns2, ?_, ?_⟩
      · rw [hn2, hn1, List.append_assoc]
      · rw [List.length_append, hl1, hl2]
        by_cases hc : classifiedB e <;> simp [List.filter_cons, hc]
        omega
    | crash s2 =>
      rw [hstep] at h
      exact absurd h (by simp)

theorem batch_ok_notification_count_witness :
    ∃ ns, st4w.notifications = st4.notifications ++ ns ∧
      ns.length = ([ev4c].filter classifiedB).length :=
  batch_ok_notification_count rootFx [ev4c] st4 st4w (by decide)

/-- C5 counterexample: an Added event for `w.py` whose execution raises
`AttributeError` is caught by `import_file`, which returns `None`; the
handler stores that `None` in the ModuleRecord Store, overwriting the
previous live handle 5 — the store is not left unchanged. -/
theorem failed_load_mutates_store_cx :
    watch_root_step rootFx st5 ⟨1, widgetFx, LoadOutcome.attrError⟩ =
      StepResult.ok ⟨[(ModKey.resolved widgetFx, none)], [], 6, [[]]⟩ ∧
    (resultState (watch_root_step rootFx st5 ⟨1, widgetFx, LoadOutcome.attrError⟩)).modules ≠
      st5.modules := by decide

/-- C5 amended: on an Added event whose load fails with `AttributeError`,
`import_file` returns `None` and the handler stores `None` under the
resolved path — replacing any previous handle rather than leaving the
store unchanged — while the registry is untouched and the notification
(the added-callback's reading of the existing registry) is still emitted;
a load failing with any other exception propagates uncaught, terminating
the loop with no notification and no store change. -/
theorem failed_load_behaviour (root : PyPath) (s : DashState) (p : PyPath)
    (hsuf : pySuffix p = ".py") :
    watch_root_step root s ⟨1, p, LoadOutcome.attrError⟩ =
      StepResult.ok { s with
        modules := dictSet s.modules (ModKey.resolved p.resolve) none,
        notifications := s.notifications ++ [watch_component_added root s.components p] } ∧
    watch_root_step root s ⟨1, p, LoadOutcome.fatal⟩ = StepResult.crash s := by
  constructor <;> simp [watch_root_step, classifiedB, hsuf]

theorem failed_load_behaviour_witness :
    watch_root_step rootFx st5 ⟨1, widgetFx, LoadOutcome.fatal⟩ = StepResult.crash st5 :=
  (failed_load_behaviour rootFx st5 widgetFx (by decide)).2

/-- C6 counterexample: a Modified event for a `.py` path with no
ModuleRecord is not skipped: `self.modules[path.resolve()]` raises
`KeyError`, the loop dies with no notification, and the following Added
event is never processed (its path never enters the store). -/
theorem unknown_path_event_fatal_cx :
    watch_root_batch rootFx st6 [ev6a, ev6b] = StepResult.crash st6 ∧
    (resultState (watch_root_batch rootFx st6 [ev6a, ev6b])).notifications = [] ∧
    dictGet (resultState (watch_root_batch rootFx st6 [ev6a, ev6b])).modules
      (ModKey.resolved otherFx.resolve) = none := by decide

/-- C6 amended: a Modified or Removed event (any kind other than Added) on
a `.py` path with no ModuleRecord Store entry raises `KeyError`: the step
crashes — the exception propagates out of the watch loop — and no
notification is emitted for the event. -/
theorem unknown_path_event_crashes (root : PyPath) (s : DashState) (p : PyPath)
    (l : LoadOutcome) (k : Nat)
    (hsuf : pySuffix p = ".py") (hk : k ≠ 1)
    (hmiss : dictGet s.modules (ModKey.resolved p.resolve) = none) :
    ∃ s1, watch_root_step root s ⟨k, p, l⟩ = StepResult.crash s1 ∧
      s1.notifications = s.notifications := by
  by_cases hk2 : k = 2
  · subst hk2
    exact ⟨{ s with components := (watch_component_modified root s.components p).2 },
      by simp [watch_root_step, classifiedB, hsuf, hmiss], rfl⟩
  · exact ⟨s,
      by simp [watch_root_step, classifiedB, hsuf, hk, hk2,
        dictGet_none_imp_dictDel_none _ _ hmiss], rfl⟩

theorem unknown_path_event_crashes_witness :
    ∃ s1, watch_root_step rootFx st6 ⟨2, widgetFx, LoadOutcome.ok []⟩ = StepResult.crash s1 ∧
      s1.notifications = st6.notifications :=
  unknown_path_event_crashes rootFx st6 widgetFx (LoadOutcome.ok []) 2
    (by decide) (by decide) (by decide)

/-- C7: the ModuleRecord Store that `run` builds keys the main module by
the bound-method object `path.resolve` (the call parentheses are missing
in `modules = {path.resolve: import_file(path)}`), so not every stored key
is a resolved path, and a later lookup by the main file's resolved path —
as the watch loop performs — finds no entry. -/
theorem run_main_module_key_not_resolved :
    ((run_initial_modules mainFx (some 0) [(widgetFx, some 1)]).map Prod.fst).all
      ModKey.isResolvedPathKey = false ∧
    dictGet (run_initial_modules mainFx (some 0) [(widgetFx, some 1)])
      (ModKey.resolved mainFx.resolve) = none := by decide

/-- C8 counterexample: a Modified event for `other.py` — outside the
components directory — still reloads the module, and its re-execution
registers `/x` in the Component Registry: processing the event adds a
registry entry even though the path is outside the root. -/
theorem outside_root_modified_adds_registration_cx :
    underComponents rootFx otherFx = false ∧
    (resultState (watch_root_step rootFx st8 ⟨2, otherFx, LoadOutcome.ok ["/x"]⟩)).components =
      [⟨"/x", otherFx⟩] ∧
    st8.components = [] := by decide

/-- C8 amended: for a path outside the components directory the
invalidation callbacks are inert — `watch_component_modified` returns an
empty route list and the registry unchanged, and `watch_component_added`
returns an empty route list — but the module's own (re-)execution during
Added/Modified processing can still add registrations to the registry. -/
theorem outside_root_callbacks_inert (root : PyPath) (comps : List Registration) (p : PyPath)
    (h : underComponents root p = false) :
    watch_component_modified root comps p = ([], comps) ∧
    watch_component_added root comps p = [] := by
  constructor <;> simp [watch_component_modified, watch_component_added, h]

theorem outside_root_callbacks_inert_witness :
    watch_component_modified rootFx [⟨"/x", otherFx⟩] otherFx = ([], [⟨"/x", otherFx⟩]) ∧
    watch_component_added rootFx [⟨"/x", otherFx⟩] otherFx = [] :=
  outside_root_callbacks_inert rootFx [⟨"/x", otherFx⟩] otherFx (by decide)

/-- C9 counterexample: in the batch `[ev9a, ev9b]`, the first event's
re-execution failure propagates out of the loop: the batch crashes, no
notification is emitted for either event, and the second event is never
classified or processed. -/
theorem exec_failure_stops_batch_cx :
    watch_root_batch rootFx st9 [ev9a, ev9b] =
      StepResult.crash ⟨[(ModKey.resolved widgetFx, some 0)], [], 1, []⟩ ∧
    (resultState (watch_root_batch rootFx st9 [ev9a, ev9b])).notifications = [] := by decide

/-- C9 amended: the only per-event failure the loop contains is an
`AttributeError` during an Added-event import (caught by `import_file`;
the loop continues into the rest of the batch with a `None` handle
stored); any event whose processing raises an uncaught exception makes
the whole batch crash, so subsequent events are neither classified nor
notified. -/
theorem failure_containment_scope (root : PyPath) (s s' : DashState) (p : PyPath)
    (e : RawEvent) (rest : List RawEvent) (hsuf : pySuffix p = ".py") :
    (∃ s1, watch_root_step root s ⟨1, p, LoadOutcome.attrError⟩ = StepResult.ok s1 ∧
      watch_root_batch root s (⟨1, p, LoadOutcome.attrError⟩ :: rest) =
        watch_root_batch root s1 rest) ∧
    (watch_root_step root s e = StepResult.crash s' →
      watch_root_batch root s (e :: rest) = StepResult.crash s') := by
  constructor
  · have hstep : watch_root_step root s ⟨1, p, LoadOutcome.attrError⟩ =
        StepResult.ok { s with
          modules := dictSet s.modules (ModKey.resolved p.resolve) none,
          notifications := s.notifications ++ [watch_component_added root s.components p] } := by
      simp [watch_root_step, classifiedB, hsuf]
    exact ⟨_, hstep, by simp [watch_root_batch, hstep]⟩
  · intro hcr
    simp [watch_root_batch, hcr]

theorem failure_containment_scope_witness :
    watch_root_batch rootFx st9 [ev9a] =
      StepResult.crash ⟨[(ModKey.resolved widgetFx, some 0)], [], 1, []⟩ :=
  (failure_containment_scope rootFx st9 ⟨[(ModKey.resolved widgetFx, some 0)], [], 1, []⟩
    widgetFx ev9a [] (by decide)).2 (by decide)

end Slopy
